import Mathlib

/-!
Verification of `gerry/data/us_census.py`: retrieval of US Census survey
data and TIGER/Line shapefiles, joined on the `GEOID` column, with local
file caching.

Tables (pandas `DataFrame` / geopandas `GeoDataFrame`) are modelled as
lists of rows, a row being an association list from column name to string
value.  External collaborators (the `us` state lookup table, the HTTP
client, the shapefile parser, the survey API client) are modelled as
oracle functions supplied as parameters.  Filesystem and network effects
are modelled by explicit state passing over a `World` record.
-/

namespace Gerry

/-- A table row: an association list from column name to cell value. -/
abbrev Row := List (String × String)

/-- A tabular result: a list of rows. -/
abbrev DataFrame := List Row

/-- Column access `r[c]`: the value of the first binding of column `c`. -/
def getCol (r : Row) (c : String) : Option String :=
  (r.find? (fun p => p.1 == c)).map (fun p => p.2)

/-- Column assignment `df[c] = v` at row level: replaces the bindings of
column `c` in place, or appends a new binding when the column is absent
(pandas keeps an existing column position and appends a new column at the
end). -/
def setCol (r : Row) (c v : String) : Row :=
  if r.any (fun p => p.1 == c) then
    r.map (fun p => if p.1 == c then (c, v) else p)
  else
    r ++ [(c, v)]

/-- `_merge_dataframe_shapefile(df, gdf)`, i.e. `gdf.merge(df, on='GEOID')`:
inner join of the geospatial table `gdf` with the survey table `df` on the
`GEOID` column; each output row is a left (shapefile) row followed by a
matching right (survey) row, in left-table order. -/
def _merge_dataframe_shapefile (df : DataFrame) (gdf : DataFrame) : DataFrame :=
  gdf.flatMap (fun g =>
    (df.filter (fun d => getCol d "GEOID" == getCol g "GEOID")).map (fun d => g ++ d))

/-- A canonical state record from the `us` library: a 2-digit FIPS code
string and a 2-letter postal abbreviation. -/
structure USState where
  fips : String
  abbr : String
deriving DecidableEq, Repr

/-- The argument accepted by `_parse_state`: a free-text string, a canonical
`us.states.State` value, or a value of any other type. -/
inductive StateArg where
  | text (s : String)
  | canonical (st : USState)
  | other
deriving DecidableEq, Repr

/-- The errors surfaced by the module.  `invalidState` is the `ValueError`
raised by `_parse_state`; the others stand for exceptions propagated from
the opaque collaborators (HTTP client, shapefile parser, pickle I/O). -/
inductive CensusError where
  | invalidState
  | network
  | parseFailure
  | keyError
  | fileNotFound
  | outOfFuel
deriving DecidableEq, Repr

/-- `_parse_state(state)`: a string is resolved through the `us.states.lookup`
table (the oracle `lookup`); a lookup miss raises `ValueError`; a canonical
state value is returned unchanged; any other input raises `ValueError`. -/
def _parse_state (lookup : String → Option USState) : StateArg → Except CensusError USState
  | .text s =>
      match lookup s with
      | some st => .ok st
      | none => .error .invalidState
  | .canonical st => .ok st
  | .other => .error .invalidState

/-- Per-row `GEOID` construction: concatenation, in order, of the values of
the key component columns (pandas `df[c1] + df[c2] + ...`); `none` when a
component column is missing from the row (pandas `KeyError`). -/
def buildGeoid (cols : List String) (r : Row) : Option String :=
  (cols.mapM (getCol r)).map String.join

/-- `df['GEOID'] = df[c1] + df[c2] + ...` at row level: recomputes the
`GEOID` value from the key component columns and stores it, overwriting
any existing `GEOID` binding. -/
def rowSetGeoid (cols : List String) (r : Row) : Option Row :=
  (buildGeoid cols r).map (setCol r "GEOID")

/-- `df['GEOID'] = df[c1] + df[c2] + ...` over the whole table. -/
def setGeoid (cols : List String) (df : DataFrame) : Option DataFrame :=
  df.mapM (rowSetGeoid cols)

/-- Key component columns for the county granularity (`df['state'] + df['county']`). -/
def countyGeoidCols : List String := ["state", "county"]

/-- Key component columns for the block-group granularity. -/
def blockGroupGeoidCols : List String := ["state", "county", "tract", "block group"]

/-- Key component columns for the tract granularity. -/
def tractGeoidCols : List String := ["state", "county", "tract"]

/-- The content of a file in the cache: raw shapefile archive bytes
(abstracted to a tag) or a pickled tabular result. -/
inductive FileContent where
  | bytes (b : Nat)
  | table (df : DataFrame)
deriving DecidableEq, Repr

/-- The observable effect state: existing directories, files on disk, and
ghost counters for the number of HTTP GETs and survey API calls issued. -/
structure World where
  dirs : List String
  files : List (String × FileContent)
  netCalls : Nat
  surveyCalls : Nat
deriving DecidableEq, Repr

/-- `os.path.exists` on a file path. -/
def World.fileExists (w : World) (p : String) : Bool :=
  w.files.any (fun q => q.1 == p)

/-- `os.path.exists` on a directory path. -/
def World.dirExists (w : World) (d : String) : Bool :=
  w.dirs.contains d

/-- Reading the file stored at `p`, when present. -/
def World.readFile (w : World) (p : String) : Option FileContent :=
  (w.files.find? (fun q => q.1 == p)).map (fun q => q.2)

/-- Writing (or overwriting) the file at `p`. -/
def World.writeFile (w : World) (p : String) (c : FileContent) : World :=
  { w with files := (p, c) :: w.files.filter (fun q => !(q.1 == p)) }

/-- `os.makedirs`: registers the directory (and implicitly its parents,
which this flat model does not track separately). -/
def World.makedirs (w : World) (d : String) : World :=
  { w with dirs := d :: w.dirs }

/-- Python `str.lower()` (ASCII case folding, applied charwise). -/
def strLower (s : String) : String := ⟨s.data.map Char.toLower⟩

/-- Python `str.upper()` (ASCII case folding, applied charwise). -/
def strUpper (s : String) : String := ⟨s.data.map Char.toUpper⟩

/-- `os.path.join` for the two-component joins used by the module. -/
def joinPath (a b : String) : String := a ++ "/" ++ b

/-- `os.path.dirname(__file__)`: the directory holding the module. -/
def moduleDir : String := "gerry/data"

/-- `os.path.join(os.path.dirname(__file__), 'files')`. -/
def filesRoot : String := joinPath moduleDir "files"

/-- `TigerShapefile` after `__init__`: the parsed state, the lowercased
geounit, the year, and the list of nationally-distributed geounits. -/
structure TigerShapefile where
  state : USState
  geounit : String
  year : Nat
  us_only : List String
deriving DecidableEq, Repr

/-- `TigerShapefile.__init__(state, geounit, year, us_only)`: parses the
state argument and lowercases the geounit. -/
def TigerShapefile.make (lookup : String → Option USState) (state : StateArg)
    (geounit : String) (year : Nat) (us_only : List String) :
    Except CensusError TigerShapefile :=
  (_parse_state lookup state).map (fun st => ⟨st, strLower geounit, year, us_only⟩)

/-- `TigerShapefile.dir`: the files root, with a state-abbreviation
subdirectory unless the geounit is nationally distributed. -/
def TigerShapefile.dir (sf : TigerShapefile) : String :=
  if sf.us_only.contains sf.geounit then filesRoot
  else joinPath filesRoot sf.state.abbr

/-- `TigerShapefile.filename`: `tl_{year}_us_{geounit}.zip` for national
geounits, `tl_{year}_{fips}_{geounit}.zip` otherwise. -/
def TigerShapefile.filename (sf : TigerShapefile) : String :=
  if sf.us_only.contains sf.geounit then
    "tl_" ++ toString sf.year ++ "_us_" ++ strLower sf.geounit ++ ".zip"
  else
    "tl_" ++ toString sf.year ++ "_" ++ sf.state.fips ++ "_" ++ strLower sf.geounit ++ ".zip"

/-- `TigerShapefile.filepath = os.path.join(dir, filename)`. -/
def TigerShapefile.filepath (sf : TigerShapefile) : String :=
  joinPath sf.dir sf.filename

/-- `TigerShapefile.url`. -/
def TigerShapefile.url (sf : TigerShapefile) : String :=
  "https://www2.census.gov/geo/tiger/TIGER" ++ toString sf.year ++ "/"
    ++ strUpper sf.geounit ++ "/" ++ sf.filename

/-- `TigerShapefile.download`: issues the HTTP GET first; only after the
response arrives does it create the missing directory and write the
response body to `filepath`.  A raising GET therefore propagates before
any filesystem mutation.  The ghost counter `netCalls` counts GET
attempts. -/
def TigerShapefile.download (net : String → Except CensusError Nat)
    (sf : TigerShapefile) (w : World) : Except CensusError Unit × World :=
  match net sf.url with
  | .error e => (.error e, { w with netCalls := w.netCalls + 1 })
  | .ok b =>
      let w1 := { w with netCalls := w.netCalls + 1 }
      let w2 := if w1.dirExists sf.dir then w1 else w1.makedirs sf.dir
      (.ok (), w2.writeFile sf.filepath (.bytes b))

/-- `TigerShapefile.load` with explicit fuel standing for the depth of the
self-recursive `self.download(); return self.load()` call in the source.
Reading an existing file hands its bytes to the shapefile parser oracle
`parseShp` (`geopandas.read_file`); a pickled table at the path is a
parse failure. -/
def TigerShapefile.loadAux (net : String → Except CensusError Nat)
    (parseShp : Nat → Except CensusError DataFrame) (sf : TigerShapefile) :
    Nat → World → Except CensusError DataFrame × World
  | 0, w => (.error .outOfFuel, w)
  | fuel+1, w =>
      if w.fileExists sf.filepath then
        match w.readFile sf.filepath with
        | some (.bytes b) => (parseShp b, w)
        | _ => (.error .parseFailure, w)
      else
        match sf.download net w with
        | (.error e, w1) => (.error e, w1)
        | (.ok _, w1) => sf.loadAux net parseShp fuel w1

/-- `TigerShapefile.load`: fuel 2 realizes the source's recursion, whose
depth never exceeds 2 because a successful `download` leaves a file at
`filepath` (the fuel-robustness theorem for claim C7 shows any fuel of at
least 2 yields the same outcome). -/
def TigerShapefile.load (net : String → Except CensusError Nat)
    (parseShp : Nat → Except CensusError DataFrame) (sf : TigerShapefile)
    (w : World) : Except CensusError DataFrame × World :=
  sf.loadAux net parseShp 2 w

/-- The survey API client (`census.core.Client`): a dataset name and the
per-granularity query methods, modelled as pure oracles from the requested
fields and the state FIPS code to the returned table (the county / tract /
block-group wildcard arguments are fixed to `Census.ALL` in the source). -/
structure SurveyClient where
  dataset : String
  state_county : List String → String → DataFrame
  state_county_tract : List String → String → DataFrame
  state_county_blockgroup : List String → String → DataFrame

/-- `SurveyData` after `__init__`. -/
structure SurveyData where
  state : USState
  dataset : String
  geounit : String
deriving DecidableEq, Repr

/-- `SurveyData.__init__(survey, state, geounit)`. -/
def SurveyData.make (lookup : String → Option USState) (survey : SurveyClient)
    (state : StateArg) (geounit : String) : Except CensusError SurveyData :=
  (_parse_state lookup state).map (fun st => ⟨st, survey.dataset, geounit⟩)

/-- `SurveyData.dir = os.path.join(dirname, 'files', abbr)`. -/
def SurveyData.dir (sd : SurveyData) : String :=
  joinPath filesRoot sd.state.abbr

/-- `SurveyData.filename = f"{abbr}_{dataset}_{geounit}.pkl"`. -/
def SurveyData.filename (sd : SurveyData) : String :=
  sd.state.abbr ++ "_" ++ sd.dataset ++ "_" ++ sd.geounit ++ ".pkl"

/-- `SurveyData.filepath = os.path.join(dir, filename)`. -/
def SurveyData.filepath (sd : SurveyData) : String :=
  joinPath sd.dir sd.filename

/-- `SurveyData.check_exists`: `True if os.path.exists(filepath) else False`. -/
def SurveyData.check_exists (sd : SurveyData) (w : World) : Bool :=
  if w.fileExists sd.filepath then true else false

/-- `SurveyData.load`: `pandas.read_pickle(filepath)`; fails when the file
is absent or does not hold a pickled table. -/
def SurveyData.load (sd : SurveyData) (w : World) :
    Except CensusError DataFrame × World :=
  match w.readFile sd.filepath with
  | some (.table df) => (.ok df, w)
  | some (.bytes _) => (.error .parseFailure, w)
  | none => (.error .fileNotFound, w)

/-- `SurveyData.save`: `df.to_pickle(filepath)`.  Per the documented
contract of the pickling collaborator, opening the target for writing
fails when the parent directory is missing, leaving the filesystem
unchanged; `save` itself never creates directories. -/
def SurveyData.save (sd : SurveyData) (df : DataFrame) (w : World) :
    Except CensusError Unit × World :=
  if w.dirExists sd.dir then (.ok (), w.writeFile sd.filepath (.table df))
  else (.error .fileNotFound, w)

/-- `get_block_groups(survey, state, fields, year, redownload, save)`:
shapefile via `TigerShapefile(state, 'bg', year).load()`, survey table
from the cache when it exists and `redownload` is false, otherwise a
fresh `survey.state_county_blockgroup` query (saved when `save` is true);
then `df['GEOID'] = df['state'] + df['county'] + df['tract'] +
df['block group']` and the merge. -/
def get_block_groups (lookup : String → Option USState)
    (net : String → Except CensusError Nat)
    (parseShp : Nat → Except CensusError DataFrame)
    (survey : SurveyClient) (state : StateArg) (fields : List String)
    (year : Nat) (redownload save : Bool) (w : World) :
    Except CensusError DataFrame × World :=
  match TigerShapefile.make lookup state "bg" year ["county"] with
  | .error e => (.error e, w)
  | .ok sf =>
    match sf.load net parseShp w with
    | (.error e, w1) => (.error e, w1)
    | (.ok gdf, w1) =>
      match SurveyData.make lookup survey state "bg" with
      | .error e => (.error e, w1)
      | .ok sd =>
        let branch : Except CensusError DataFrame × World :=
          if sd.check_exists w1 && !redownload then
            sd.load w1
          else
            match _parse_state lookup state with
            | .error e => (.error e, w1)
            | .ok st =>
              let w2 := { w1 with surveyCalls := w1.surveyCalls + 1 }
              let df := survey.state_county_blockgroup fields st.fips
              if save then
                match sd.save df w2 with
                | (.error e, w3) => (.error e, w3)
                | (.ok _, w3) => (.ok df, w3)
              else (.ok df, w2)
        match branch with
        | (.error e, w4) => (.error e, w4)
        | (.ok df, w4) =>
          match setGeoid blockGroupGeoidCols df with
          | none => (.error .keyError, w4)
          | some df2 => (.ok (_merge_dataframe_shapefile df2 gdf), w4)

/-- `get_counties(survey, state, fields, year, redownload, save)`: parses
the state once, loads the national county shapefile, keeps only the rows
with `STATEFP == str(state.fips)`, obtains the survey table as in the
other entry points via `survey.state_county`, then `df['GEOID'] =
df['state'] + df['county']` and the merge. -/
def get_counties (lookup : String → Option USState)
    (net : String → Except CensusError Nat)
    (parseShp : Nat → Except CensusError DataFrame)
    (survey : SurveyClient) (state : StateArg) (fields : List String)
    (year : Nat) (redownload save : Bool) (w : World) :
    Except CensusError DataFrame × World :=
  match _parse_state lookup state with
  | .error e => (.error e, w)
  | .ok st =>
    match TigerShapefile.make lookup (.canonical st) "county" year ["county"] with
    | .error e => (.error e, w)
    | .ok sf =>
      match sf.load net parseShp w with
      | (.error e, w1) => (.error e, w1)
      | (.ok gdf0, w1) =>
        let gdf := gdf0.filter (fun g => getCol g "STATEFP" == some st.fips)
        match SurveyData.make lookup survey (.canonical st) "county" with
        | .error e => (.error e, w1)
        | .ok sd =>
          let branch : Except CensusError DataFrame × World :=
            if sd.check_exists w1 && !redownload then
              sd.load w1
            else
              let w2 := { w1 with surveyCalls := w1.surveyCalls + 1 }
              let df := survey.state_county fields st.fips
              if save then
                match sd.save df w2 with
                | (.error e, w3) => (.error e, w3)
                | (.ok _, w3) => (.ok df, w3)
              else (.ok df, w2)
          match branch with
          | (.error e, w4) => (.error e, w4)
          | (.ok df, w4) =>
            match setGeoid countyGeoidCols df with
            | none => (.error .keyError, w4)
            | some df2 => (.ok (_merge_dataframe_shapefile df2 gdf), w4)

/-- `get_tracts(survey, state, fields, year, redownload, save)`: as
`get_block_groups` with geounit `tract`, the `survey.state_county_tract`
query and `df['GEOID'] = df['state'] + df['county'] + df['tract']`. -/
def get_tracts (lookup : String → Option USState)
    (net : String → Except CensusError Nat)
    (parseShp : Nat → Except CensusError DataFrame)
    (survey : SurveyClient) (state : StateArg) (fields : List String)
    (year : Nat) (redownload save : Bool) (w : World) :
    Except CensusError DataFrame × World :=
  match TigerShapefile.make lookup state "tract" year ["county"] with
  | .error e => (.error e, w)
  | .ok sf =>
    match sf.load net parseShp w with
    | (.error e, w1) => (.error e, w1)
    | (.ok gdf, w1) =>
      match SurveyData.make lookup survey state "tract" with
      | .error e => (.error e, w1)
      | .ok sd =>
        let branch : Except CensusError DataFrame × World :=
          if sd.check_exists w1 && !redownload then
            sd.load w1
          else
            match _parse_state lookup state with
            | .error e => (.error e, w1)
            | .ok st =>
              let w2 := { w1 with surveyCalls := w1.surveyCalls + 1 }
              let df := survey.state_county_tract fields st.fips
              if save then
                match sd.save df w2 with
                | (.error e, w3) => (.error e, w3)
                | (.ok _, w3) => (.ok df, w3)
              else (.ok df, w2)
        match branch with
        | (.error e, w4) => (.error e, w4)
        | (.ok df, w4) =>
          match setGeoid tractGeoidCols df with
          | none => (.error .keyError, w4)
          | some df2 => (.ok (_merge_dataframe_shapefile df2 gdf), w4)

/-- The decimal digit list of a natural number (reference function used to
reason about `Nat.repr` in the path-construction proofs). -/
def natDigits (n : Nat) : List Char :=
  if h : n / 10 = 0 then [Nat.digitChar (n % 10)]
  else natDigits (n / 10) ++ [Nat.digitChar (n % 10)]
decreasing_by
  exact Nat.div_lt_self (Nat.pos_of_ne_zero (fun h0 => h (by simp [h0]))) (by omega)

/-- Reading a decimal digit list back into a number. -/
def charsVal (l : List Char) : Nat :=
  l.foldl (fun a c => 10 * a + (c.toNat - 48)) 0

/-- A well-formed FIPS code: exactly two decimal digits. -/
def ValidFips (s : String) : Prop :=
  s.length = 2 ∧ ∀ c ∈ s.data, c.isDigit

/-- The empty cache state: no directories, no files, no requests issued. -/
def initialWorld : World := ⟨[], [], 0, 0⟩

/-- The state of Iowa, used for concrete instances. -/
def iowa : USState := ⟨"19", "IA"⟩

/-- A one-entry lookup table oracle recognizing only `Iowa`. -/
def lookupIowa : String → Option USState :=
  fun s => if s == "Iowa" then some iowa else none

/-- Scenario 1 shapefile table: county rows with `GEOID` values
`19001` and `19003`. -/
def gdfScenario : DataFrame :=
  [[("GEOID", "19001"), ("STATEFP", "19"), ("NAME", "Adair")],
   [("GEOID", "19003"), ("STATEFP", "19"), ("NAME", "Adams")]]

/-- Scenario 1 survey table after `GEOID` construction: rows keyed
`19001` and `19005`. -/
def dfScenario : DataFrame :=
  [[("state", "19"), ("county", "001"), ("P1", "7"), ("GEOID", "19001")],
   [("state", "19"), ("county", "005"), ("P1", "3"), ("GEOID", "19005")]]

/-- The shapefile cache entry an entry point builds once the state has
resolved to `st` (geounit already lowercase, default `us_only`). -/
def shapefileFor (st : USState) (geounit : String) (year : Nat) : TigerShapefile :=
  ⟨st, geounit, year, ["county"]⟩

/-- The survey cache entry an entry point builds once the state has
resolved to `st`. -/
def sdFor (survey : SurveyClient) (st : USState) (geounit : String) : SurveyData :=
  ⟨st, survey.dataset, geounit⟩

/-- The survey-table acquisition step shared by the three entry points
(steps `if sd.check_exists() and (not redownload) ... else ...` of the
source), abstracted over the freshly queried table. -/
def surveyBranch (sd : SurveyData) (freshDf : DataFrame) (redownload save : Bool)
    (w : World) : Except CensusError DataFrame × World :=
  if sd.check_exists w && !redownload then sd.load w
  else
    let w2 := { w with surveyCalls := w.surveyCalls + 1 }
    if save then
      match sd.save freshDf w2 with
      | (.error e, w3) => (.error e, w3)
      | (.ok _, w3) => (.ok freshDf, w3)
    else (.ok freshDf, w2)

/-- The `GEOID`-construction-and-merge tail shared by the three entry
points. -/
def finishMerge (cols : List String) (gdf : DataFrame)
    (res : Except CensusError DataFrame × World) :
    Except CensusError DataFrame × World :=
  match res with
  | (.error e, w4) => (.error e, w4)
  | (.ok df, w4) =>
      match setGeoid cols df with
      | none => (.error .keyError, w4)
      | some df2 => (.ok (_merge_dataframe_shapefile df2 gdf), w4)

/-- A network oracle whose GET always raises. -/
def netFail : String → Except CensusError Nat := fun _ => .error .network

/-- A network oracle always returning the archive tagged `0`. -/
def netZero : String → Except CensusError Nat := fun _ => .ok 0

/-- A national county shapefile table holding rows of two states. -/
def gdfNational : DataFrame :=
  [[("GEOID", "19001"), ("STATEFP", "19"), ("NAME", "Adair")],
   [("GEOID", "19003"), ("STATEFP", "19"), ("NAME", "Adams")],
   [("GEOID", "31001"), ("STATEFP", "31"), ("NAME", "Adams NE")]]

/-- A shapefile parser oracle returning the national county table. -/
def parseNational : Nat → Except CensusError DataFrame := fun _ => .ok gdfNational

/-- A raw county survey table as returned by the survey API (no `GEOID`). -/
def dfSurveyCounty : DataFrame :=
  [[("state", "19"), ("county", "001"), ("P1", "7")],
   [("state", "19"), ("county", "005"), ("P1", "3")]]

/-- A raw tract survey table as returned by the survey API. -/
def dfSurveyTract : DataFrame :=
  [[("state", "19"), ("county", "001"), ("tract", "950200"), ("P1", "7")]]

/-- A raw block-group survey table as returned by the survey API. -/
def dfSurveyBG : DataFrame :=
  [[("state", "19"), ("county", "001"), ("tract", "950200"),
    ("block group", "1"), ("P1", "7")]]

/-- A concrete survey client for the redistricting dataset `pl`. -/
def surveyPL : SurveyClient :=
  ⟨"pl", fun _ _ => dfSurveyCounty, fun _ _ => dfSurveyTract, fun _ _ => dfSurveyBG⟩

/-- A world with the Iowa state subdirectory, the national county
shapefile and a cached county survey table. -/
def worldCountyCached : World :=
  ⟨[joinPath filesRoot "IA"],
   [((shapefileFor iowa "county" 2020).filepath, .bytes 0),
    ((sdFor surveyPL iowa "county").filepath, .table dfSurveyCounty)], 0, 0⟩

/-- A world with the Iowa state subdirectory and the national county
shapefile, but no cached survey table. -/
def worldCountyFresh : World :=
  ⟨[joinPath filesRoot "IA"],
   [((shapefileFor iowa "county" 2020).filepath, .bytes 0)], 0, 0⟩

/-- As `worldCountyCached`, but the cached survey table carries a bogus
stored `GEOID` column. -/
def worldCountyJunkGeoid : World :=
  ⟨[joinPath filesRoot "IA"],
   [((shapefileFor iowa "county" 2020).filepath, .bytes 0),
    ((sdFor surveyPL iowa "county").filepath,
      .table (dfSurveyCounty.map (fun r => setCol r "GEOID" "XXXXX")))], 0, 0⟩

/-- Oracles describing real collaborators: the HTTP client and the
shapefile parser never raise the fuel-exhaustion marker, which exists only
as an artifact of the embedding of the source's self-recursion. -/
def OracleOk (net : String → Except CensusError Nat)
    (parseShp : Nat → Except CensusError DataFrame) : Prop :=
  (∀ u, net u ≠ .error .outOfFuel) ∧ ∀ b, parseShp b ≠ .error .outOfFuel

theorem getCol_append (g d : Row) (c : String) :
    getCol (g ++ d) c = ((getCol g c).or (getCol d c)) := by
  unfold getCol
  rw [List.find?_append]
  cases h : g.find? (fun p => p.1 == c) <;> simp [Option.or]

theorem getCol_append_of_isSome (g d : Row) (c : String) (h : (getCol g c).isSome) :
    getCol (g ++ d) c = getCol g c := by
  rw [getCol_append]
  cases hg : getCol g c with
  | none => rw [hg] at h; simp at h
  | some v => simp [Option.or]

theorem mem_merge_iff (df gdf : DataFrame) (r : Row) :
    r ∈ _merge_dataframe_shapefile df gdf ↔
      ∃ g ∈ gdf, ∃ d ∈ df, getCol d "GEOID" = getCol g "GEOID" ∧ r = g ++ d := by
  unfold _merge_dataframe_shapefile
  simp only [List.mem_flatMap, List.mem_map, List.mem_filter]
  constructor
  · rintro ⟨g, hg, d, ⟨hd, hbeq⟩, hr⟩
    exact ⟨g, hg, d, hd, by simpa using hbeq, hr.symm⟩
  · rintro ⟨g, hg, d, hd, heq, hr⟩
    exact ⟨g, hg, d, ⟨hd, by simpa using heq⟩, hr.symm⟩

/-- C1: for every survey table and every shapefile table, the merged result
of `_merge_dataframe_shapefile` (the merge used by every entry point) is
the inner join on `GEOID`: a row with key `k` appears in the result iff `k`
occurs as a `GEOID` in both tables, so unmatched rows are dropped; on the
concrete scenario tables (shapefile keys `19001`, `19003`; survey keys
`19001`, `19005`), the result is exactly one row, keyed `19001`. -/
theorem merge_inner_join_on_geoid :
    (∀ (df gdf : DataFrame) (k : String),
        (∃ r ∈ _merge_dataframe_shapefile df gdf, getCol r "GEOID" = some k) ↔
          (∃ g ∈ gdf, getCol g "GEOID" = some k) ∧
            ∃ d ∈ df, getCol d "GEOID" = some k)
    ∧ _merge_dataframe_shapefile dfScenario gdfScenario =
        [[("GEOID", "19001"), ("STATEFP", "19"), ("NAME", "Adair"),
          ("state", "19"), ("county", "001"), ("P1", "7"), ("GEOID", "19001")]] := by
  constructor
  · intro df gdf k
    constructor
    · rintro ⟨r, hr, hk⟩
      rcases (mem_merge_iff df gdf r).1 hr with ⟨g, hg, d, hd, heq, rfl⟩
      rw [getCol_append] at hk
      cases hgk : getCol g "GEOID" with
      | none =>
          rw [hgk, heq.trans hgk] at hk
          simp [Option.or] at hk
      | some v =>
          rw [hgk] at hk
          simp only [Option.or] at hk
          cases hk
          exact ⟨⟨g, hg, hgk⟩, ⟨d, hd, heq.trans hgk⟩⟩
    · rintro ⟨⟨g, hg, hgk⟩, ⟨d, hd, hdk⟩⟩
      refine ⟨g ++ d, (mem_merge_iff df gdf (g ++ d)).2
        ⟨g, hg, d, hd, by rw [hdk, hgk], rfl⟩, ?_⟩
      rw [getCol_append, hgk]
      simp [Option.or]
  · decide

theorem merge_inner_join_on_geoid_witness :
    ∃ r ∈ _merge_dataframe_shapefile dfScenario gdfScenario,
      getCol r "GEOID" = some "19001" :=
  (merge_inner_join_on_geoid.1 dfScenario gdfScenario "19001").mpr (by decide)

theorem find?_map_set (r : Row) (c v : String)
    (h : r.any (fun p => p.1 == c) = true) :
    (r.map (fun p => if p.1 == c then (c, v) else p)).find? (fun p => p.1 == c)
      = some (c, v) := by
  induction r with
  | nil => simp at h
  | cons a t ih =>
      rw [List.map_cons, List.find?_cons]
      by_cases hac : (a.1 == c) = true
      · rw [if_pos hac]
        simp
      · rw [if_neg hac, (show (a.1 == c) = false from by simpa using hac)]
        have ht : t.any (fun p => p.1 == c) = true := by
          simpa [List.any_cons, (show (a.1 == c) = false from by simpa using hac)] using h
        exact ih ht

theorem find?_map_set_ne (r : Row) (c c2 v : String) (h : c2 ≠ c) :
    (r.map (fun p => if p.1 == c then (c, v) else p)).find? (fun p => p.1 == c2)
      = r.find? (fun p => p.1 == c2) := by
  induction r with
  | nil => rfl
  | cons a t ih =>
      rw [List.map_cons, List.find?_cons, List.find?_cons]
      by_cases hac : (a.1 == c) = true
      · have ha : a.1 = c := eq_of_beq hac
        have hc2 : (c == c2) = false := beq_eq_false_iff_ne.2 (Ne.symm h)
        have ha2 : (a.1 == c2) = false := by rw [ha]; exact hc2
        rw [if_pos hac, ha2, (show ((c, v).1 == c2) = false from hc2), ih]
      · have hacf : (a.1 == c) = false := by simpa using hac
        rw [if_neg hac]
        cases ha2 : (a.1 == c2) with
        | true => rfl
        | false => exact ih

theorem getCol_setCol_self (r : Row) (c v : String) :
    getCol (setCol r c v) c = some v := by
  unfold setCol getCol
  by_cases h : r.any (fun p => p.1 == c) = true
  · rw [if_pos h, find?_map_set r c v h]
    rfl
  · have hnone : r.find? (fun p => p.1 == c) = none :=
      List.find?_eq_none.2 (fun x hx hpx => h (List.any_eq_true.2 ⟨x, hx, hpx⟩))
    rw [if_neg h, List.find?_append, hnone]
    simp

theorem getCol_setCol_of_ne (r : Row) (c c2 v : String) (h : c2 ≠ c) :
    getCol (setCol r c v) c2 = getCol r c2 := by
  unfold setCol getCol
  by_cases hany : r.any (fun p => p.1 == c) = true
  · rw [if_pos hany, find?_map_set_ne r c c2 v h]
  · have hc2 : (c == c2) = false := beq_eq_false_iff_ne.2 (Ne.symm h)
    rw [if_neg hany, List.find?_append]
    have : List.find? (fun p => p.1 == c2) [(c, v)] = none := by
      simp [List.find?_cons, hc2]
    rw [this]
    cases hr : r.find? (fun p => p.1 == c2) <;> simp [Option.or]

theorem setCol_setCol (r : Row) (c v v2 : String) :
    setCol (setCol r c v) c v2 = setCol r c v2 := by
  by_cases hany : r.any (fun p => p.1 == c) = true
  · unfold setCol
    have hany2 : (r.map (fun p => if p.1 == c then (c, v) else p)).any
        (fun p => p.1 == c) = true := by
      rcases List.any_eq_true.1 hany with ⟨x, hx, hpx⟩
      refine List.any_eq_true.2 ⟨(c, v), List.mem_map.2 ⟨x, hx, ?_⟩, by simp⟩
      rw [if_pos hpx]
    rw [if_pos hany, if_pos hany2, if_pos hany, List.map_map]
    refine List.map_congr_left (fun p _ => ?_)
    by_cases hp : (p.1 == c) = true
    · show (if ((if p.1 == c then (c, v) else p)).1 == c then (c, v2)
          else (if p.1 == c then (c, v) else p)) = if p.1 == c then (c, v2) else p
      rw [if_pos hp, if_pos hp, if_pos (show ((c, v).1 == c) = true from by simp)]
    · show (if ((if p.1 == c then (c, v) else p)).1 == c then (c, v2)
          else (if p.1 == c then (c, v) else p)) = if p.1 == c then (c, v2) else p
      simp only [if_neg hp]
  · unfold setCol
    have hany2 : (r ++ [(c, v)]).any (fun p => p.1 == c) = true := by
      refine List.any_eq_true.2 ⟨(c, v), by simp, by simp⟩
    rw [if_neg hany, if_pos hany2, if_neg hany, List.map_append]
    have hmap : r.map (fun p => if p.1 == c then (c, v2) else p) = r := by
      have hpt : ∀ p ∈ r, (if p.1 == c then (c, v2) else p) = p := by
        intro p hp
        have hpf : ¬((p.1 == c) = true) := by
          cases hpc : (p.1 == c) with
          | true => exact absurd (List.any_eq_true.2 ⟨p, hp, hpc⟩) hany
          | false => simp
        rw [if_neg hpf]
      calc r.map (fun p => if p.1 == c then (c, v2) else p)
          = r.map id := List.map_congr_left hpt
        _ = r := List.map_id r
    rw [hmap, List.map_cons]
    rw [if_pos (show ((c, v).1 == c) = true from by simp)]
    rfl

/-- C4: the `GEOID` built by the county entry point (`df['GEOID'] =
df['state'] + df['county']`, i.e. `rowSetGeoid countyGeoidCols` as used by
`get_counties`) is the string concatenation of the row's state code and
county code, in that order, with no separator; string concatenation
preserves leading zeros, as the concrete row (`"19"`, `"001"` ↦ `"19001"`)
shows. -/
theorem county_geoid_is_state_concat_county :
    (∀ (r : Row) (s c : String),
        getCol r "state" = some s → getCol r "county" = some c →
          buildGeoid countyGeoidCols r = some (s ++ c) ∧
          rowSetGeoid countyGeoidCols r = some (setCol r "GEOID" (s ++ c)) ∧
          ∃ r2, rowSetGeoid countyGeoidCols r = some r2 ∧
            getCol r2 "GEOID" = some (s ++ c))
    ∧ rowSetGeoid countyGeoidCols [("state", "19"), ("county", "001")]
        = some [("state", "19"), ("county", "001"), ("GEOID", "19001")] := by
  constructor
  · intro r s c hs hc
    have hb : buildGeoid countyGeoidCols r = some (s ++ c) := by
      unfold buildGeoid countyGeoidCols
      simp only [List.mapM_cons, List.mapM_nil, hs, hc, Option.pure_def,
        Option.bind_some, Option.bind_eq_bind, Option.some_bind, Option.map_some]
      simp [String.join]
    refine ⟨hb, ?_, ?_⟩
    · unfold rowSetGeoid
      rw [hb]
      rfl
    · refine ⟨setCol r "GEOID" (s ++ c), ?_, getCol_setCol_self r "GEOID" (s ++ c)⟩
      unfold rowSetGeoid
      rw [hb]
      rfl
  · decide

theorem county_geoid_is_state_concat_county_witness :
    buildGeoid countyGeoidCols [("state", "19"), ("county", "001")]
      = some ("19" ++ "001") :=
  (county_geoid_is_state_concat_county.1 [("state", "19"), ("county", "001")]
    "19" "001" (by decide) (by decide)).1

/-- C5: `_parse_state` fails (with the `InvalidStateError`, i.e.
`CensusError.invalidState`) exactly when the input is a text string the
lookup table does not recognize, or is neither text nor a canonical state
value; the failure produces no error of any other kind, and an entry point
invoked with such an argument returns the error immediately with the world
(filesystem, network and survey-call counters) unchanged. -/
theorem parse_state_invalid_iff :
    ∀ (lookup : String → Option USState) (arg : StateArg),
      ((_parse_state lookup arg = .error .invalidState) ↔
        ((∃ s, arg = .text s ∧ lookup s = none) ∨ arg = .other))
      ∧ (∀ e, _parse_state lookup arg = .error e → e = .invalidState)
      ∧ (∀ net parseShp survey fields year rd sv w e,
            _parse_state lookup arg = .error e →
            get_counties lookup net parseShp survey arg fields year rd sv w
                = (.error e, w)
            ∧ get_block_groups lookup net parseShp survey arg fields year rd sv w
                = (.error e, w)
            ∧ get_tracts lookup net parseShp survey arg fields year rd sv w
                = (.error e, w)) := by
  intro lookup arg
  refine ⟨⟨?_, ?_⟩, ?_, ?_⟩
  · intro h
    cases arg with
    | text s =>
        cases hl : lookup s with
        | none => exact .inl ⟨s, rfl, hl⟩
        | some st => simp [_parse_state, hl] at h
    | canonical st => simp [_parse_state] at h
    | other => exact .inr rfl
  · rintro (⟨s, rfl, hl⟩ | rfl)
    · simp [_parse_state, hl]
    · rfl
  · intro e h
    cases arg with
    | text s =>
        cases hl : lookup s with
        | none => simp [_parse_state, hl] at h; simp [h]
        | some st => simp [_parse_state, hl] at h
    | canonical st => simp [_parse_state] at h
    | other => simp [_parse_state] at h; simp [h]
  · intro net parseShp survey fields year rd sv w e h
    refine ⟨?_, ?_, ?_⟩
    · unfold get_counties
      rw [h]
    · unfold get_block_groups TigerShapefile.make
      rw [h]
      rfl
    · unfold get_tracts TigerShapefile.make
      rw [h]
      rfl

theorem parse_state_invalid_iff_witness :
    _parse_state lookupIowa .other = .error .invalidState :=
  (parse_state_invalid_iff lookupIowa .other).1.2 (.inr rfl)

theorem fileExists_writeFile_self (w : World) (p : String) (c : FileContent) :
    (w.writeFile p c).fileExists p = true := by
  simp [World.writeFile, World.fileExists]

theorem readFile_writeFile_self (w : World) (p : String) (c : FileContent) :
    (w.writeFile p c).readFile p = some c := by
  simp [World.writeFile, World.readFile, List.find?_cons]

theorem fileExists_of_readFile (w : World) (p : String) (c : FileContent)
    (h : w.readFile p = some c) : w.fileExists p = true := by
  unfold World.readFile at h
  unfold World.fileExists
  cases hf : w.files.find? (fun q => q.1 == p) with
  | none => rw [hf] at h; simp at h
  | some q =>
      have hmem := List.mem_of_find?_eq_some hf
      have hq := List.find?_some hf
      exact List.any_eq_true.2 ⟨q, hmem, hq⟩

theorem readFile_none_of_fileExists_false (w : World) (p : String)
    (h : w.fileExists p = false) : w.readFile p = none := by
  cases hf : w.readFile p with
  | none => rfl
  | some c => rw [fileExists_of_readFile w p c hf] at h; cases h

/-- C9: if the HTTP GET inside `TigerShapefile.download` raises, the
filesystem is left unchanged — no directory is created and no file is
written — because the request is issued before any directory creation or
file write; only the ghost request counter moves. -/
theorem download_failure_leaves_filesystem_unchanged :
    ∀ (net : String → Except CensusError Nat) (sf : TigerShapefile)
      (w : World) (e : CensusError),
      net sf.url = .error e →
        (sf.download net w).1 = .error e
        ∧ (sf.download net w).2.files = w.files
        ∧ (sf.download net w).2.dirs = w.dirs := by
  intro net sf w e h
  unfold TigerShapefile.download
  rw [h]
  exact ⟨rfl, rfl, rfl⟩

theorem download_failure_leaves_filesystem_unchanged_witness :
    ((shapefileFor iowa "county" 2020).download netFail initialWorld).1
        = .error .network
    ∧ ((shapefileFor iowa "county" 2020).download netFail initialWorld).2.files
        = initialWorld.files
    ∧ ((shapefileFor iowa "county" 2020).download netFail initialWorld).2.dirs
        = initialWorld.dirs :=
  download_failure_leaves_filesystem_unchanged netFail
    (shapefileFor iowa "county" 2020) initialWorld .network rfl

/-- C8 counterexample: with no filesystem state at all (in particular no
state subdirectory), `SurveyData.save` does not complete — the pickling
write raises because its parent directory is missing and `save` never
creates directories — and `check_exists` still returns `false` afterwards,
contradicting the claim that `check_exists` turns true after a `save`
issued while the parent state subdirectory did not exist. -/
theorem save_without_parent_dir_fails :
    ((sdFor surveyPL iowa "county").save dfSurveyCounty initialWorld).1
        = .error .fileNotFound
    ∧ (sdFor surveyPL iowa "county").check_exists
        ((sdFor surveyPL iowa "county").save dfSurveyCounty initialWorld).2 = false :=
  ⟨rfl, rfl⟩

/-- C8 (amended): `check_exists` is false in the empty cache state;
`save` succeeds exactly when the parent state subdirectory already exists
(`save` itself never creates it), and immediately after a completed
(successful) `save` the `check_exists` test returns true; when the parent
directory is missing, `save` raises and leaves the world — and hence
`check_exists` — unchanged. -/
theorem check_exists_after_save :
    ∀ (sd : SurveyData) (df : DataFrame) (w : World),
      sd.check_exists initialWorld = false
      ∧ ((sd.save df w).1 = .ok () ↔ w.dirExists sd.dir = true)
      ∧ (w.dirExists sd.dir = true →
            (sd.save df w).2 = w.writeFile sd.filepath (.table df)
            ∧ sd.check_exists (sd.save df w).2 = true)
      ∧ (w.dirExists sd.dir = false → sd.save df w = (.error .fileNotFound, w)) := by
  intro sd df w
  refine ⟨rfl, ?_, ?_, ?_⟩
  · unfold SurveyData.save
    by_cases h : w.dirExists sd.dir = true
    · rw [if_pos h]
      simp [h]
    · rw [if_neg h]
      simp only [Bool.not_eq_true] at h
      simp [h]
  · intro h
    unfold SurveyData.save
    rw [if_pos h]
    refine ⟨rfl, ?_⟩
    unfold SurveyData.check_exists
    rw [fileExists_writeFile_self]
    rfl
  · intro h
    unfold SurveyData.save
    rw [if_neg (by simp [h])]

theorem check_exists_after_save_witness :
    ((sdFor surveyPL iowa "county").save dfSurveyCounty
        (initialWorld.makedirs (sdFor surveyPL iowa "county").dir)).1 = .ok ()
    ∧ (sdFor surveyPL iowa "county").check_exists
        ((sdFor surveyPL iowa "county").save dfSurveyCounty
          (initialWorld.makedirs (sdFor surveyPL iowa "county").dir)).2 = true := by
  have h := check_exists_after_save (sdFor surveyPL iowa "county") dfSurveyCounty
    (initialWorld.makedirs (sdFor surveyPL iowa "county").dir)
  exact ⟨h.2.1.mpr (by decide), (h.2.2.1 (by decide)).2⟩

theorem loadAux_succ (net : String → Except CensusError Nat)
    (parseShp : Nat → Except CensusError DataFrame) (sf : TigerShapefile)
    (fuel : Nat) (w : World) :
    sf.loadAux net parseShp (fuel + 1) w =
      if w.fileExists sf.filepath then
        match w.readFile sf.filepath with
        | some (.bytes b) => (parseShp b, w)
        | _ => (.error .parseFailure, w)
      else
        match sf.download net w with
        | (.error e, w1) => (.error e, w1)
        | (.ok _, w1) => sf.loadAux net parseShp fuel w1 := rfl

theorem download_of_net_ok (net : String → Except CensusError Nat)
    (sf : TigerShapefile) (w : World) (b : Nat) (h : net sf.url = .ok b) :
    ∃ w1, sf.download net w = (.ok (), w1)
      ∧ w1.netCalls = w.netCalls + 1
      ∧ w1.surveyCalls = w.surveyCalls
      ∧ w1.readFile sf.filepath = some (.bytes b)
      ∧ w1.fileExists sf.filepath = true := by
  unfold TigerShapefile.download
  rw [h]
  refine ⟨_, rfl, ?_, ?_, readFile_writeFile_self _ _ _, fileExists_writeFile_self _ _ _⟩
  · split <;> rfl
  · split <;> rfl

theorem download_of_net_error (net : String → Except CensusError Nat)
    (sf : TigerShapefile) (w : World) (e : CensusError) (h : net sf.url = .error e) :
    sf.download net w = (.error e, { w with netCalls := w.netCalls + 1 }) := by
  unfold TigerShapefile.download
  rw [h]

/-- C7: `TigerShapefile.load` terminates and performs at most one
download: adding fuel beyond 2 never changes the outcome and the
fuel-exhaustion marker is never returned (termination of the source's
self-recursion); if the local file exists, the world is returned untouched
(zero downloads); if it is missing, exactly one GET is issued — on success
a file is left at `filepath` and parsing is retried exactly once on the
downloaded bytes, on failure the error propagates with no retry. -/
theorem load_terminates_single_download :
    ∀ (net : String → Except CensusError Nat)
      (parseShp : Nat → Except CensusError DataFrame)
      (sf : TigerShapefile) (w : World),
      (∀ fuel, 2 ≤ fuel → sf.loadAux net parseShp fuel w = sf.load net parseShp w)
      ∧ (OracleOk net parseShp → (sf.load net parseShp w).1 ≠ .error .outOfFuel)
      ∧ (sf.load net parseShp w).2.netCalls ≤ w.netCalls + 1
      ∧ (w.fileExists sf.filepath = true → (sf.load net parseShp w).2 = w)
      ∧ (∀ b, w.fileExists sf.filepath = false → net sf.url = .ok b →
            (sf.load net parseShp w).1 = parseShp b
            ∧ (sf.load net parseShp w).2.netCalls = w.netCalls + 1
            ∧ (sf.load net parseShp w).2.fileExists sf.filepath = true)
      ∧ (∀ e, w.fileExists sf.filepath = false → net sf.url = .error e →
            sf.load net parseShp w = (.error e, { w with netCalls := w.netCalls + 1 })) := by
  intro net parseShp sf w
  by_cases hf : w.fileExists sf.filepath = true
  · have hstep : ∀ fuel, sf.loadAux net parseShp (fuel + 1) w
        = (match w.readFile sf.filepath with
           | some (.bytes b) => (parseShp b, w)
           | _ => (.error .parseFailure, w)) := by
      intro fuel
      rw [loadAux_succ, if_pos hf]
    have hload : sf.load net parseShp w
        = (match w.readFile sf.filepath with
           | some (.bytes b) => (parseShp b, w)
           | _ => (.error .parseFailure, w)) := hstep 1
    refine ⟨?_, ?_, ?_, ?_, ?_, ?_⟩
    · intro fuel hfuel
      obtain ⟨k, rfl⟩ : ∃ k, fuel = k + 1 + 1 := ⟨fuel - 2, by omega⟩
      rw [hstep, hload]
    · intro hok
      rw [hload]
      cases hr : w.readFile sf.filepath with
      | none => simp
      | some c =>
          cases c with
          | bytes b => exact hok.2 b
          | table df => simp
    · rw [hload]
      cases hr : w.readFile sf.filepath with
      | none => simp
      | some c => cases c with
          | bytes b => simp
          | table df => simp
    · intro _
      rw [hload]
      cases hr : w.readFile sf.filepath with
      | none => rfl
      | some c => cases c with
          | bytes b => rfl
          | table df => rfl
    · intro b hff
      rw [hf] at hff
      cases hff
    · intro e hff
      rw [hf] at hff
      cases hff
  · have hff : w.fileExists sf.filepath = false := by
      cases h : w.fileExists sf.filepath with
      | true => exact absurd h hf
      | false => rfl
    cases hnet : net sf.url with
    | error e =>
        have hdl := download_of_net_error net sf w e hnet
        have hstep : ∀ fuel, sf.loadAux net parseShp (fuel + 1) w
            = (.error e, { w with netCalls := w.netCalls + 1 }) := by
          intro fuel
          rw [loadAux_succ, if_neg (by rw [hff]; exact Bool.false_ne_true), hdl]
        have hload : sf.load net parseShp w
            = (.error e, { w with netCalls := w.netCalls + 1 }) := hstep 1
        refine ⟨?_, ?_, ?_, ?_, ?_, ?_⟩
        · intro fuel hfuel
          obtain ⟨k, rfl⟩ : ∃ k, fuel = k + 1 + 1 := ⟨fuel - 2, by omega⟩
          rw [hstep, hload]
        · intro hok
          rw [hload]
          intro hcontra
          have : e = .outOfFuel := by cases hcontra; rfl
          exact hok.1 sf.url (by rw [hnet, this])
        · rw [hload]
        · intro hcontra
          rw [hff] at hcontra
          cases hcontra
        · intro b _ hb
          cases hb
        · intro e2 _ he2
          cases he2
          exact hload
    | ok b =>
        obtain ⟨w1, hdl, hn1, hs1, hr1, hf1⟩ := download_of_net_ok net sf w b hnet
        have hstep : ∀ fuel, sf.loadAux net parseShp (fuel + 1 + 1) w
            = (parseShp b, w1) := by
          intro fuel
          rw [loadAux_succ, if_neg (by rw [hff]; exact Bool.false_ne_true), hdl]
          show sf.loadAux net parseShp (fuel + 1) w1 = (parseShp b, w1)
          rw [loadAux_succ, if_pos hf1, hr1]
        have hload : sf.load net parseShp w = (parseShp b, w1) := hstep 0
        refine ⟨?_, ?_, ?_, ?_, ?_, ?_⟩
        · intro fuel hfuel
          obtain ⟨k, rfl⟩ : ∃ k, fuel = k + 1 + 1 := ⟨fuel - 2, by omega⟩
          rw [hstep, hload]
        · intro hok
          rw [hload]
          intro hcontra
          exact hok.2 b (by rw [show parseShp b = .error .outOfFuel from hcontra])
        · rw [hload]
          exact le_of_eq hn1
        · intro hcontra
          rw [hff] at hcontra
          cases hcontra
        · intro b2 _ hb2
          cases hb2
          exact ⟨by rw [hload], by rw [hload]; exact hn1, by rw [hload]; exact hf1⟩
        · intro e _ he
          cases he

theorem load_terminates_single_download_witness :
    ((shapefileFor iowa "county" 2020).load netZero parseNational initialWorld).1
        = parseNational 0
    ∧ ((shapefileFor iowa "county" 2020).load netZero parseNational
          initialWorld).2.netCalls = initialWorld.netCalls + 1
    ∧ ((shapefileFor iowa "county" 2020).load netZero parseNational
          initialWorld).2.fileExists (shapefileFor iowa "county" 2020).filepath
        = true :=
  (load_terminates_single_download netZero parseNational
      (shapefileFor iowa "county" 2020) initialWorld).2.2.2.2.1 0 rfl rfl

theorem tiger_make_of_parse (lookup : String → Option USState) (arg : StateArg)
    (st : USState) (g : String) (y : Nat) (us : List String)
    (h : _parse_state lookup arg = .ok st) :
    TigerShapefile.make lookup arg g y us = .ok ⟨st, strLower g, y, us⟩ := by
  unfold TigerShapefile.make
  rw [h]
  rfl

theorem sd_make_of_parse (lookup : String → Option USState) (survey : SurveyClient)
    (arg : StateArg) (st : USState) (g : String)
    (h : _parse_state lookup arg = .ok st) :
    SurveyData.make lookup survey arg g = .ok (sdFor survey st g) := by
  unfold SurveyData.make
  rw [h]
  rfl

theorem load_file_present (net : String → Except CensusError Nat)
    (parseShp : Nat → Except CensusError DataFrame) (sf : TigerShapefile)
    (w : World) (b : Nat) (hrf : w.readFile sf.filepath = some (.bytes b)) :
    sf.load net parseShp w = (parseShp b, w) := by
  unfold TigerShapefile.load
  rw [loadAux_succ, if_pos (fileExists_of_readFile w sf.filepath _ hrf), hrf]

theorem sd_load_snd (sd : SurveyData) (w : World) : (sd.load w).2 = w := by
  unfold SurveyData.load
  cases h : w.readFile sd.filepath with
  | none => rfl
  | some c => cases c with
      | bytes b => rfl
      | table df => rfl

theorem finishMerge_snd (cols : List String) (gdf : DataFrame)
    (res : Except CensusError DataFrame × World) :
    (finishMerge cols gdf res).2 = res.2 := by
  rcases res with ⟨r, w⟩
  cases r with
  | error e => rfl
  | ok df =>
      cases h : setGeoid cols df with
      | none => simp only [finishMerge, h]
      | some df2 => simp only [finishMerge, h]

theorem surveyBranch_cachehit (sd : SurveyData) (freshDf : DataFrame) (sv : Bool)
    (w : World) (h : sd.check_exists w = true) :
    surveyBranch sd freshDf false sv w = sd.load w := by
  unfold surveyBranch
  rw [h]
  rfl

theorem surveyBranch_fresh_nosave (sd : SurveyData) (freshDf : DataFrame) (rd : Bool)
    (w : World) (h : (sd.check_exists w && !rd) = false) :
    surveyBranch sd freshDf rd false w
      = (.ok freshDf, { w with surveyCalls := w.surveyCalls + 1 }) := by
  unfold surveyBranch
  rw [h]
  rfl

theorem save_of_dir (sd : SurveyData) (df : DataFrame) (w : World)
    (hdir : w.dirExists sd.dir = true) :
    sd.save df w = (.ok (), w.writeFile sd.filepath (.table df)) := by
  unfold SurveyData.save
  rw [if_pos hdir]

theorem save_of_nodir (sd : SurveyData) (df : DataFrame) (w : World)
    (hdir : w.dirExists sd.dir = false) :
    sd.save df w = (.error .fileNotFound, w) := by
  unfold SurveyData.save
  rw [if_neg (by rw [hdir]; exact Bool.false_ne_true)]

theorem surveyBranch_fresh_save (sd : SurveyData) (freshDf : DataFrame) (rd : Bool)
    (w : World) (h : (sd.check_exists w && !rd) = false)
    (hdir : w.dirExists sd.dir = true) :
    surveyBranch sd freshDf rd true w
      = (.ok freshDf, ({ w with surveyCalls := w.surveyCalls + 1 }).writeFile
          sd.filepath (.table freshDf)) := by
  have hsave := save_of_dir sd freshDf { w with surveyCalls := w.surveyCalls + 1 }
    (show ({ w with surveyCalls := w.surveyCalls + 1 } : World).dirExists sd.dir
      = true from hdir)
  simp only [surveyBranch, h, Bool.false_eq_true, if_false, if_true, hsave]

theorem surveyBranch_fresh_save_nodir (sd : SurveyData) (freshDf : DataFrame)
    (rd : Bool) (w : World) (h : (sd.check_exists w && !rd) = false)
    (hdir : w.dirExists sd.dir = false) :
    surveyBranch sd freshDf rd true w
      = (.error .fileNotFound, { w with surveyCalls := w.surveyCalls + 1 }) := by
  have hsave := save_of_nodir sd freshDf { w with surveyCalls := w.surveyCalls + 1 }
    (show ({ w with surveyCalls := w.surveyCalls + 1 } : World).dirExists sd.dir
      = false from hdir)
  simp only [surveyBranch, h, Bool.false_eq_true, if_false, if_true, hsave]

theorem get_counties_eq (lookup : String → Option USState)
    (net : String → Except CensusError Nat)
    (parseShp : Nat → Except CensusError DataFrame) (survey : SurveyClient)
    (arg : StateArg) (fields : List String) (year : Nat) (rd sv : Bool)
    (w : World) (st : USState) (hparse : _parse_state lookup arg = .ok st) :
    get_counties lookup net parseShp survey arg fields year rd sv w =
      (match (shapefileFor st "county" year).load net parseShp w with
       | (.error e, w1) => (.error e, w1)
       | (.ok gdf0, w1) =>
           finishMerge countyGeoidCols
             (gdf0.filter (fun g => getCol g "STATEFP" == some st.fips))
             (surveyBranch (sdFor survey st "county")
               (survey.state_county fields st.fips) rd sv w1)) := by
  unfold get_counties
  simp only [hparse]
  simp only [show TigerShapefile.make lookup (.canonical st) "county" year ["county"]
      = .ok (shapefileFor st "county" year) from rfl]
  cases hl : (shapefileFor st "county" year).load net parseShp w with
  | mk res w1 =>
      cases res with
      | error e => rfl
      | ok gdf0 =>
          simp only [show SurveyData.make lookup survey (.canonical st) "county"
              = .ok (sdFor survey st "county") from rfl]
          rfl

theorem get_block_groups_eq (lookup : String → Option USState)
    (net : String → Except CensusError Nat)
    (parseShp : Nat → Except CensusError DataFrame) (survey : SurveyClient)
    (arg : StateArg) (fields : List String) (year : Nat) (rd sv : Bool)
    (w : World) (st : USState) (hparse : _parse_state lookup arg = .ok st) :
    get_block_groups lookup net parseShp survey arg fields year rd sv w =
      (match (shapefileFor st "bg" year).load net parseShp w with
       | (.error e, w1) => (.error e, w1)
       | (.ok gdf, w1) =>
           finishMerge blockGroupGeoidCols gdf
             (surveyBranch (sdFor survey st "bg")
               (survey.state_county_blockgroup fields st.fips) rd sv w1)) := by
  unfold get_block_groups
  simp only [show TigerShapefile.make lookup arg "bg" year ["county"]
      = .ok (shapefileFor st "bg" year) from by
        unfold TigerShapefile.make; rw [hparse]; rfl]
  cases hl : (shapefileFor st "bg" year).load net parseShp w with
  | mk res w1 =>
      cases res with
      | error e => rfl
      | ok gdf =>
          simp only [show SurveyData.make lookup survey arg "bg"
              = .ok (sdFor survey st "bg") from by
                unfold SurveyData.make; rw [hparse]; rfl]
          simp only [hparse]
          rfl

theorem get_tracts_eq (lookup : String → Option USState)
    (net : String → Except CensusError Nat)
    (parseShp : Nat → Except CensusError DataFrame) (survey : SurveyClient)
    (arg : StateArg) (fields : List String) (year : Nat) (rd sv : Bool)
    (w : World) (st : USState) (hparse : _parse_state lookup arg = .ok st) :
    get_tracts lookup net parseShp survey arg fields year rd sv w =
      (match (shapefileFor st "tract" year).load net parseShp w with
       | (.error e, w1) => (.error e, w1)
       | (.ok gdf, w1) =>
           finishMerge tractGeoidCols gdf
             (surveyBranch (sdFor survey st "tract")
               (survey.state_county_tract fields st.fips) rd sv w1)) := by
  unfold get_tracts
  simp only [show TigerShapefile.make lookup arg "tract" year ["county"]
      = .ok (shapefileFor st "tract" year) from by
        unfold TigerShapefile.make; rw [hparse]; rfl]
  cases hl : (shapefileFor st "tract" year).load net parseShp w with
  | mk res w1 =>
      cases res with
      | error e => rfl
      | ok gdf =>
          simp only [show SurveyData.make lookup survey arg "tract"
              = .ok (sdFor survey st "tract") from by
                unfold SurveyData.make; rw [hparse]; rfl]
          simp only [hparse]
          rfl

theorem check_exists_of_readFile (sd : SurveyData) (w : World) (c : FileContent)
    (h : w.readFile sd.filepath = some c) : sd.check_exists w = true := by
  unfold SurveyData.check_exists
  rw [fileExists_of_readFile w _ _ h]
  rfl

theorem sd_load_of_readFile (sd : SurveyData) (w : World) (df : DataFrame)
    (h : w.readFile sd.filepath = some (.table df)) : sd.load w = (.ok df, w) := by
  unfold SurveyData.load
  rw [h]

/-- C2: `get_counties` restricts the national county shapefile table,
before the join, to exactly the rows whose `STATEFP` equals the resolved
state's FIPS code: every row of every successful result carries
`STATEFP = fips`, and (shown on the cache-hit path, where the loaded
shapefile table `G` is explicit) the table entering the merge is exactly
`G.filter (STATEFP == fips)`. -/
theorem get_counties_restricts_to_state :
    (∀ lookup net parseShp survey arg fields year rd sv w st out w2,
        _parse_state lookup arg = .ok st →
        get_counties lookup net parseShp survey arg fields year rd sv w
            = (.ok out, w2) →
        ∀ r ∈ out, getCol r "STATEFP" = some st.fips)
    ∧ (∀ lookup net parseShp survey arg fields year sv w st b G df df2,
        _parse_state lookup arg = .ok st →
        w.readFile (shapefileFor st "county" year).filepath = some (.bytes b) →
        parseShp b = .ok G →
        w.readFile (sdFor survey st "county").filepath = some (.table df) →
        setGeoid countyGeoidCols df = some df2 →
        get_counties lookup net parseShp survey arg fields year false sv w
          = (.ok (_merge_dataframe_shapefile df2
              (G.filter (fun g => getCol g "STATEFP" == some st.fips))), w)) := by
  constructor
  · intro lookup net parseShp survey arg fields year rd sv w st out w2 hparse hok
    rw [get_counties_eq lookup net parseShp survey arg fields year rd sv w st hparse]
      at hok
    cases hl : (shapefileFor st "county" year).load net parseShp w with
    | mk res w1 =>
        cases res with
        | error e => simp [hl] at hok
        | ok gdf0 =>
            simp only [hl] at hok
            cases hb : surveyBranch (sdFor survey st "county")
                (survey.state_county fields st.fips) rd sv w1 with
            | mk bres w4 =>
                cases bres with
                | error e => simp [finishMerge, hb] at hok
                | ok df =>
                    simp only [hb] at hok
                    cases hsg : setGeoid countyGeoidCols df with
                    | none => simp [finishMerge, hsg] at hok
                    | some df2 =>
                        simp only [finishMerge, hsg, Prod.mk.injEq,
                          Except.ok.injEq] at hok
                        obtain ⟨rfl, rfl⟩ := hok
                        intro r hr
                        rcases (mem_merge_iff _ _ r).1 hr with
                          ⟨g, hg, d, hd, heq, rfl⟩
                        have hgf := (List.mem_filter.1 hg).2
                        have hgs : getCol g "STATEFP" = some st.fips := by
                          simpa using hgf
                        rw [getCol_append_of_isSome g d _ (by rw [hgs]; rfl)]
                        exact hgs
  · intro lookup net parseShp survey arg fields year sv w st b G df df2
      hparse hsf hG hsd hsg
    rw [get_counties_eq lookup net parseShp survey arg fields year false sv w st
      hparse]
    simp only [load_file_present net parseShp _ w b hsf, hG]
    rw [surveyBranch_cachehit _ _ sv w
      (check_exists_of_readFile _ w _ hsd)]
    rw [sd_load_of_readFile _ w df hsd]
    simp only [finishMerge, hsg]

theorem get_counties_restricts_to_state_witness :
    get_counties lookupIowa netFail parseNational surveyPL (.text "Iowa") []
        2020 false false worldCountyCached
      = (.ok (_merge_dataframe_shapefile
          [[("state", "19"), ("county", "001"), ("P1", "7"), ("GEOID", "19001")],
           [("state", "19"), ("county", "005"), ("P1", "3"), ("GEOID", "19005")]]
          (gdfNational.filter (fun g => getCol g "STATEFP" == some iowa.fips))),
         worldCountyCached) :=
  get_counties_restricts_to_state.2 lookupIowa netFail parseNational surveyPL
    (.text "Iowa") [] 2020 false worldCountyCached iowa 0 gdfNational
    dfSurveyCounty
    [[("state", "19"), ("county", "001"), ("P1", "7"), ("GEOID", "19001")],
     [("state", "19"), ("county", "005"), ("P1", "3"), ("GEOID", "19005")]]
    rfl rfl rfl rfl (by decide)

/-- C3: in each entry point, the cached survey table is used exactly when
the cache file exists and `redownload` is false — then no survey query and
no write occurs and the world is returned unchanged; in every other case
(including `redownload = false` with no cache file) a fresh query is
issued (the survey-call counter increments) and its result is written to
the cache exactly when `save = true` (assuming, for the save, the state
subdirectory exists). -/
theorem survey_cache_decision :
    ∀ (lookup : String → Option USState) (net : String → Except CensusError Nat)
      (parseShp : Nat → Except CensusError DataFrame) (survey : SurveyClient)
      (arg : StateArg) (fields : List String) (year : Nat) (sv : Bool)
      (w : World) (st : USState) (b : Nat) (G : DataFrame),
      _parse_state lookup arg = .ok st →
      parseShp b = .ok G →
      ((w.readFile (shapefileFor st "county" year).filepath = some (.bytes b) →
        ((sdFor survey st "county").check_exists w = true →
            get_counties lookup net parseShp survey arg fields year false sv w
              = finishMerge countyGeoidCols
                  (G.filter (fun g => getCol g "STATEFP" == some st.fips))
                  ((sdFor survey st "county").load w)
            ∧ (get_counties lookup net parseShp survey arg fields year
                false sv w).2 = w)
        ∧ (∀ rd, ((sdFor survey st "county").check_exists w && !rd) = false →
            (get_counties lookup net parseShp survey arg fields year
                rd false w).2 = { w with surveyCalls := w.surveyCalls + 1 }
            ∧ (w.dirExists (sdFor survey st "county").dir = true →
                (get_counties lookup net parseShp survey arg fields year
                    rd true w).2
                  = ({ w with surveyCalls := w.surveyCalls + 1 }).writeFile
                      (sdFor survey st "county").filepath
                      (.table (survey.state_county fields st.fips)))))
      ∧ (w.readFile (shapefileFor st "bg" year).filepath = some (.bytes b) →
        ((sdFor survey st "bg").check_exists w = true →
            get_block_groups lookup net parseShp survey arg fields year false sv w
              = finishMerge blockGroupGeoidCols G ((sdFor survey st "bg").load w)
            ∧ (get_block_groups lookup net parseShp survey arg fields year
                false sv w).2 = w)
        ∧ (∀ rd, ((sdFor survey st "bg").check_exists w && !rd) = false →
            (get_block_groups lookup net parseShp survey arg fields year
                rd false w).2 = { w with surveyCalls := w.surveyCalls + 1 }
            ∧ (w.dirExists (sdFor survey st "bg").dir = true →
                (get_block_groups lookup net parseShp survey arg fields year
                    rd true w).2
                  = ({ w with surveyCalls := w.surveyCalls + 1 }).writeFile
                      (sdFor survey st "bg").filepath
                      (.table (survey.state_county_blockgroup fields st.fips)))))
      ∧ (w.readFile (shapefileFor st "tract" year).filepath = some (.bytes b) →
        ((sdFor survey st "tract").check_exists w = true →
            get_tracts lookup net parseShp survey arg fields year false sv w
              = finishMerge tractGeoidCols G ((sdFor survey st "tract").load w)
            ∧ (get_tracts lookup net parseShp survey arg fields year
                false sv w).2 = w)
        ∧ (∀ rd, ((sdFor survey st "tract").check_exists w && !rd) = false →
            (get_tracts lookup net parseShp survey arg fields year
                rd false w).2 = { w with surveyCalls := w.surveyCalls + 1 }
            ∧ (w.dirExists (sdFor survey st "tract").dir = true →
                (get_tracts lookup net parseShp survey arg fields year
                    rd true w).2
                  = ({ w with surveyCalls := w.surveyCalls + 1 }).writeFile
                      (sdFor survey st "tract").filepath
                      (.table (survey.state_county_tract fields st.fips)))))) := by
  intro lookup net parseShp survey arg fields year sv w st b G hparse hG
  refine ⟨fun hsf => ⟨fun hchk => ?_, fun rd hfresh => ⟨?_, fun hdir => ?_⟩⟩,
          fun hsf => ⟨fun hchk => ?_, fun rd hfresh => ⟨?_, fun hdir => ?_⟩⟩,
          fun hsf => ⟨fun hchk => ?_, fun rd hfresh => ⟨?_, fun hdir => ?_⟩⟩⟩
  · rw [get_counties_eq lookup net parseShp survey arg fields year false sv w st
      hparse]
    simp only [load_file_present net parseShp _ w b hsf, hG]
    rw [surveyBranch_cachehit _ _ sv w hchk]
    exact ⟨rfl, by rw [finishMerge_snd, sd_load_snd]⟩
  · rw [get_counties_eq lookup net parseShp survey arg fields year rd false w st
      hparse]
    simp only [load_file_present net parseShp _ w b hsf, hG]
    rw [surveyBranch_fresh_nosave _ _ rd w hfresh, finishMerge_snd]
  · rw [get_counties_eq lookup net parseShp survey arg fields year rd true w st
      hparse]
    simp only [load_file_present net parseShp _ w b hsf, hG]
    rw [surveyBranch_fresh_save _ _ rd w hfresh hdir, finishMerge_snd]
  · rw [get_block_groups_eq lookup net parseShp survey arg fields year false sv
      w st hparse]
    simp only [load_file_present net parseShp _ w b hsf, hG]
    rw [surveyBranch_cachehit _ _ sv w hchk]
    exact ⟨rfl, by rw [finishMerge_snd, sd_load_snd]⟩
  · rw [get_block_groups_eq lookup net parseShp survey arg fields year rd false
      w st hparse]
    simp only [load_file_present net parseShp _ w b hsf, hG]
    rw [surveyBranch_fresh_nosave _ _ rd w hfresh, finishMerge_snd]
  · rw [get_block_groups_eq lookup net parseShp survey arg fields year rd true
      w st hparse]
    simp only [load_file_present net parseShp _ w b hsf, hG]
    rw [surveyBranch_fresh_save _ _ rd w hfresh hdir, finishMerge_snd]
  · rw [get_tracts_eq lookup net parseShp survey arg fields year false sv w st
      hparse]
    simp only [load_file_present net parseShp _ w b hsf, hG]
    rw [surveyBranch_cachehit _ _ sv w hchk]
    exact ⟨rfl, by rw [finishMerge_snd, sd_load_snd]⟩
  · rw [get_tracts_eq lookup net parseShp survey arg fields year rd false w st
      hparse]
    simp only [load_file_present net parseShp _ w b hsf, hG]
    rw [surveyBranch_fresh_nosave _ _ rd w hfresh, finishMerge_snd]
  · rw [get_tracts_eq lookup net parseShp survey arg fields year rd true w st
      hparse]
    simp only [load_file_present net parseShp _ w b hsf, hG]
    rw [surveyBranch_fresh_save _ _ rd w hfresh hdir, finishMerge_snd]

theorem survey_cache_decision_witness :
    (get_counties lookupIowa netFail parseNational surveyPL (.text "Iowa") []
        2020 false false worldCountyFresh).2
      = { worldCountyFresh with surveyCalls := worldCountyFresh.surveyCalls + 1 } :=
  (((survey_cache_decision lookupIowa netFail parseNational surveyPL
      (.text "Iowa") [] 2020 false worldCountyFresh iowa 0 gdfNational
      rfl rfl).1 rfl).2 false (by decide)).1

theorem mapM_getCol_setCol (cols : List String) (r : Row) (v : String)
    (h : "GEOID" ∉ cols) :
    cols.mapM (getCol (setCol r "GEOID" v)) = cols.mapM (getCol r) := by
  induction cols with
  | nil => rfl
  | cons c t ih =>
      simp only [List.mem_cons, not_or] at h
      simp only [List.mapM_cons]
      rw [getCol_setCol_of_ne r "GEOID" c v (fun hc => h.1 hc.symm), ih h.2]

theorem rowSetGeoid_setCol_geoid (cols : List String) (r : Row) (v : String)
    (h : "GEOID" ∉ cols) :
    rowSetGeoid cols (setCol r "GEOID" v) = rowSetGeoid cols r := by
  unfold rowSetGeoid
  have hb : buildGeoid cols (setCol r "GEOID" v) = buildGeoid cols r := by
    unfold buildGeoid
    rw [mapM_getCol_setCol cols r v h]
  rw [hb]
  cases hg : buildGeoid cols r with
  | none => rfl
  | some s =>
      show some (setCol (setCol r "GEOID" v) "GEOID" s) = some (setCol r "GEOID" s)
      rw [setCol_setCol]

theorem setGeoid_map_setCol (cols : List String) (df : DataFrame) (v : String)
    (h : "GEOID" ∉ cols) :
    setGeoid cols (df.map (fun r => setCol r "GEOID" v)) = setGeoid cols df := by
  unfold setGeoid
  induction df with
  | nil => rfl
  | cons r t ih =>
      simp only [List.map_cons, List.mapM_cons]
      rw [rowSetGeoid_setCol_geoid cols r v h, ih]

/-- C10: in every entry point the `GEOID` column of the survey table is
freshly recomputed from the key component columns just before the join —
overwriting any stored `GEOID`: row-wise, pre-setting `GEOID` to any value
does not change the recomputation; and each entry point, run on a cached
survey table whose stored `GEOID` column has been overwritten with an
arbitrary value, returns the same result as on the original table, so a
stored `GEOID` is never used as the join key. -/
theorem cached_geoid_never_used :
    (∀ (cols : List String) (r : Row) (v : String), "GEOID" ∉ cols →
        rowSetGeoid cols (setCol r "GEOID" v) = rowSetGeoid cols r)
    ∧ (∀ lookup net parseShp survey arg fields year sv wA wB st b G df v,
        _parse_state lookup arg = .ok st →
        parseShp b = .ok G →
        wA.readFile (shapefileFor st "county" year).filepath = some (.bytes b) →
        wB.readFile (shapefileFor st "county" year).filepath = some (.bytes b) →
        wA.readFile (sdFor survey st "county").filepath = some (.table df) →
        wB.readFile (sdFor survey st "county").filepath
            = some (.table (df.map (fun r => setCol r "GEOID" v))) →
        (get_counties lookup net parseShp survey arg fields year false sv wA).1
          = (get_counties lookup net parseShp survey arg fields year false sv wB).1)
    ∧ (∀ lookup net parseShp survey arg fields year sv wA wB st b G df v,
        _parse_state lookup arg = .ok st →
        parseShp b = .ok G →
        wA.readFile (shapefileFor st "bg" year).filepath = some (.bytes b) →
        wB.readFile (shapefileFor st "bg" year).filepath = some (.bytes b) →
        wA.readFile (sdFor survey st "bg").filepath = some (.table df) →
        wB.readFile (sdFor survey st "bg").filepath
            = some (.table (df.map (fun r => setCol r "GEOID" v))) →
        (get_block_groups lookup net parseShp survey arg fields year
            false sv wA).1
          = (get_block_groups lookup net parseShp survey arg fields year
              false sv wB).1)
    ∧ (∀ lookup net parseShp survey arg fields year sv wA wB st b G df v,
        _parse_state lookup arg = .ok st →
        parseShp b = .ok G →
        wA.readFile (shapefileFor st "tract" year).filepath = some (.bytes b) →
        wB.readFile (shapefileFor st "tract" year).filepath = some (.bytes b) →
        wA.readFile (sdFor survey st "tract").filepath = some (.table df) →
        wB.readFile (sdFor survey st "tract").filepath
            = some (.table (df.map (fun r => setCol r "GEOID" v))) →
        (get_tracts lookup net parseShp survey arg fields year false sv wA).1
          = (get_tracts lookup net parseShp survey arg fields year false sv wB).1) := by
  refine ⟨rowSetGeoid_setCol_geoid, ?_, ?_, ?_⟩
  · intro lookup net parseShp survey arg fields year sv wA wB st b G df v
      hparse hG hsfA hsfB hsdA hsdB
    rw [get_counties_eq lookup net parseShp survey arg fields year false sv wA
        st hparse,
      get_counties_eq lookup net parseShp survey arg fields year false sv wB
        st hparse]
    simp only [load_file_present net parseShp _ wA b hsfA,
      load_file_present net parseShp _ wB b hsfB, hG]
    rw [surveyBranch_cachehit _ _ sv wA (check_exists_of_readFile _ wA _ hsdA),
      surveyBranch_cachehit _ _ sv wB (check_exists_of_readFile _ wB _ hsdB),
      sd_load_of_readFile _ wA df hsdA, sd_load_of_readFile _ wB _ hsdB]
    simp only [finishMerge]
    rw [setGeoid_map_setCol countyGeoidCols df v (by decide)]
    cases hsg : setGeoid countyGeoidCols df with
    | none => rfl
    | some df2 => rfl
  · intro lookup net parseShp survey arg fields year sv wA wB st b G df v
      hparse hG hsfA hsfB hsdA hsdB
    rw [get_block_groups_eq lookup net parseShp survey arg fields year false sv
        wA st hparse,
      get_block_groups_eq lookup net parseShp survey arg fields year false sv
        wB st hparse]
    simp only [load_file_present net parseShp _ wA b hsfA,
      load_file_present net parseShp _ wB b hsfB, hG]
    rw [surveyBranch_cachehit _ _ sv wA (check_exists_of_readFile _ wA _ hsdA),
      surveyBranch_cachehit _ _ sv wB (check_exists_of_readFile _ wB _ hsdB),
      sd_load_of_readFile _ wA df hsdA, sd_load_of_readFile _ wB _ hsdB]
    simp only [finishMerge]
    rw [setGeoid_map_setCol blockGroupGeoidCols df v (by decide)]
    cases hsg : setGeoid blockGroupGeoidCols df with
    | none => rfl
    | some df2 => rfl
  · intro lookup net parseShp survey arg fields year sv wA wB st b G df v
      hparse hG hsfA hsfB hsdA hsdB
    rw [get_tracts_eq lookup net parseShp survey arg fields year false sv wA st
        hparse,
      get_tracts_eq lookup net parseShp survey arg fields year false sv wB st
        hparse]
    simp only [load_file_present net parseShp _ wA b hsfA,
      load_file_present net parseShp _ wB b hsfB, hG]
    rw [surveyBranch_cachehit _ _ sv wA (check_exists_of_readFile _ wA _ hsdA),
      surveyBranch_cachehit _ _ sv wB (check_exists_of_readFile _ wB _ hsdB),
      sd_load_of_readFile _ wA df hsdA, sd_load_of_readFile _ wB _ hsdB]
    simp only [finishMerge]
    rw [setGeoid_map_setCol tractGeoidCols df v (by decide)]
    cases hsg : setGeoid tractGeoidCols df with
    | none => rfl
    | some df2 => rfl

theorem cached_geoid_never_used_witness :
    (get_counties lookupIowa netFail parseNational surveyPL (.text "Iowa") []
        2020 false false worldCountyCached).1
      = (get_counties lookupIowa netFail parseNational surveyPL (.text "Iowa") []
          2020 false false worldCountyJunkGeoid).1 :=
  cached_geoid_never_used.2.1 lookupIowa netFail parseNational surveyPL
    (.text "Iowa") [] 2020 false worldCountyCached worldCountyJunkGeoid iowa 0
    gdfNational dfSurveyCounty "XXXXX" rfl rfl rfl rfl rfl rfl

theorem digitChar_isDigit (m : Nat) (h : m < 10) :
    (Nat.digitChar m).isDigit = true := by
  interval_cases m <;> rfl

theorem digitChar_val (m : Nat) (h : m < 10) :
    (Nat.digitChar m).toNat - 48 = m := by
  interval_cases m <;> rfl

theorem toDigitsCore_eq_natDigits (fuel : Nat) :
    ∀ (n : Nat) (acc : List Char), n < fuel →
      Nat.toDigitsCore 10 fuel n acc = natDigits n ++ acc := by
  induction fuel with
  | zero => intro n acc h; omega
  | succ f ih =>
      intro n acc h
      rw [Nat.toDigitsCore, natDigits]
      by_cases h10 : n / 10 = 0
      · rw [if_pos h10, dif_pos h10]
        rfl
      · rw [if_neg h10, dif_neg h10]
        rw [ih (n / 10) (Nat.digitChar (n % 10) :: acc) (by omega)]
        rw [List.append_assoc]
        rfl

theorem natDigits_all_digits (n : Nat) : ∀ c ∈ natDigits n, c.isDigit = true := by
  induction n using Nat.strong_induction_on with
  | _ n ih =>
      rw [natDigits]
      by_cases h10 : n / 10 = 0
      · rw [dif_pos h10]
        intro c hc
        rw [List.mem_singleton] at hc
        subst hc
        exact digitChar_isDigit (n % 10) (Nat.mod_lt n (by omega))
      · rw [dif_neg h10]
        intro c hc
        rcases List.mem_append.1 hc with h1 | h2
        · exact ih (n / 10) (Nat.div_lt_self (by omega) (by omega)) c h1
        · rw [List.mem_singleton] at h2
          subst h2
          exact digitChar_isDigit (n % 10) (Nat.mod_lt n (by omega))

theorem natDigits_val (n : Nat) : charsVal (natDigits n) = n := by
  induction n using Nat.strong_induction_on with
  | _ n ih =>
      rw [natDigits]
      by_cases h10 : n / 10 = 0
      · rw [dif_pos h10]
        unfold charsVal
        rw [List.foldl_cons, List.foldl_nil]
        rw [digitChar_val (n % 10) (Nat.mod_lt n (by omega))]
        omega
      · rw [dif_neg h10]
        unfold charsVal
        rw [List.foldl_append]
        have hv := ih (n / 10) (Nat.div_lt_self (by omega) (by omega))
        unfold charsVal at hv
        rw [hv, List.foldl_cons, List.foldl_nil]
        rw [digitChar_val (n % 10) (Nat.mod_lt n (by omega))]
        omega

theorem repr_data_eq_natDigits (n : Nat) : (Nat.repr n).data = natDigits n := by
  show (Nat.toDigits 10 n).asString.data = natDigits n
  unfold Nat.toDigits
  rw [toDigitsCore_eq_natDigits (n + 1) n [] (Nat.lt_succ_self n)]
  show natDigits n ++ [] = natDigits n
  exact List.append_nil _

theorem nat_repr_injective (m n : Nat) (h : Nat.repr m = Nat.repr n) : m = n := by
  have hd : natDigits m = natDigits n := by
    rw [← repr_data_eq_natDigits, ← repr_data_eq_natDigits, h]
  have := congrArg charsVal hd
  rwa [natDigits_val, natDigits_val] at this

theorem repr_all_digits (n : Nat) : ∀ c ∈ (Nat.repr n).data, c.isDigit = true := by
  intro c hc
  rw [repr_data_eq_natDigits] at hc
  exact natDigits_all_digits n c hc

theorem digit_ne_underscore (c : Char) (h : c.isDigit = true) : c ≠ '_' := by
  intro hc
  subst hc
  simp [Char.isDigit] at h

theorem digit_ne_slash (c : Char) (h : c.isDigit = true) : c ≠ '/' := by
  intro hc
  subst hc
  simp [Char.isDigit] at h

theorem append_underscore_inj :
    ∀ (a1 a2 t1 t2 : List Char),
      (∀ c ∈ a1, c ≠ '_') → (∀ c ∈ a2, c ≠ '_') →
      a1 ++ '_' :: t1 = a2 ++ '_' :: t2 → a1 = a2 ∧ t1 = t2 := by
  intro a1
  induction a1 with
  | nil =>
      intro a2 t1 t2 h1 h2 heq
      cases a2 with
      | nil => simpa using heq
      | cons b bs =>
          rw [List.nil_append, List.cons_append] at heq
          injection heq with hb1 hb2
          exact absurd hb1.symm (h2 b (List.mem_cons_self b bs))
  | cons a as ih =>
      intro a2 t1 t2 h1 h2 heq
      cases a2 with
      | nil =>
          rw [List.cons_append, List.nil_append] at heq
          injection heq with hb1 hb2
          exact absurd hb1 (h1 a (List.mem_cons_self a as))
      | cons b bs =>
          rw [List.cons_append, List.cons_append] at heq
          injection heq with hb1 hb2
          have hrec := ih bs t1 t2 (fun c hc => h1 c (List.mem_cons_of_mem a hc))
            (fun c hc => h2 c (List.mem_cons_of_mem b hc)) hb2
          exact ⟨by rw [hb1, hrec.1], hrec.2⟩

theorem data_joinPath (a b : String) :
    (joinPath a b).data = a.data ++ '/' :: b.data := by
  unfold joinPath
  have h : ("/" : String).data = ['/'] := rfl
  simp [String.data_append, h]

theorem data_us_filename (Y G : String) :
    ("tl_" ++ Y ++ "_us_" ++ G ++ ".zip").data
      = 't' :: 'l' :: '_'
          :: (Y.data ++ '_' :: 'u' :: 's' :: '_' :: (G.data ++ ['.', 'z', 'i', 'p'])) := by
  have h1 : ("tl_" : String).data = ['t', 'l', '_'] := rfl
  have h2 : ("_us_" : String).data = ['_', 'u', 's', '_'] := rfl
  have h3 : (".zip" : String).data = ['.', 'z', 'i', 'p'] := rfl
  simp [String.data_append, h1, h2, h3]

theorem data_state_filename (Y F G : String) :
    ("tl_" ++ Y ++ "_" ++ F ++ "_" ++ G ++ ".zip").data
      = 't' :: 'l' :: '_'
          :: (Y.data ++ '_' :: (F.data ++ '_' :: (G.data ++ ['.', 'z', 'i', 'p']))) := by
  have h1 : ("tl_" : String).data = ['t', 'l', '_'] := rfl
  have h2 : ("_" : String).data = ['_'] := rfl
  have h3 : (".zip" : String).data = ['.', 'z', 'i', 'p'] := rfl
  simp [String.data_append, h1, h2, h3]

theorem mem_of_contains (l : List String) (a : String) (h : l.contains a = true) :
    a ∈ l :=
  List.elem_iff.mp h

theorem repr_data_no_underscore (n : Nat) :
    ∀ c ∈ (Nat.repr n).data, c ≠ '_' :=
  fun c hc => digit_ne_underscore c (repr_all_digits n c hc)

theorem string_length_data (s : String) : s.data.length = s.length := rfl

/-- C6: the shapefile cache path is a deterministic function of the entry
(`TigerShapefile.filepath` is a pure function of the stored state, geounit
and year) and, for well-formed states (2-digit FIPS, 2-character
abbreviation) and lowercase geounits, it is injective: equal paths force
equal geounit and year, and an equal state as well — except when the
geounit is nationally distributed (in `us_only`), where the path is
independent of the state. -/
theorem shapefile_filepath_injective :
    (∀ (sf1 sf2 : TigerShapefile),
        sf1.us_only = sf2.us_only →
        ValidFips sf1.state.fips → ValidFips sf2.state.fips →
        sf1.state.abbr.length = 2 → sf2.state.abbr.length = 2 →
        strLower sf1.geounit = sf1.geounit → strLower sf2.geounit = sf2.geounit →
        sf1.filepath = sf2.filepath →
        sf1.geounit = sf2.geounit ∧ sf1.year = sf2.year ∧
          (sf1.geounit ∈ sf1.us_only ∨ sf1.state = sf2.state))
    ∧ (∀ (st1 st2 : USState) (g : String) (y : Nat) (us : List String),
        g ∈ us →
        TigerShapefile.filepath ⟨st1, g, y, us⟩
          = TigerShapefile.filepath ⟨st2, g, y, us⟩) := by
  constructor
  · intro sf1 sf2 hus hf1 hf2 ha1 ha2 hg1 hg2 hpath
    obtain ⟨⟨f1, a1⟩, g1, y1, us1⟩ := sf1
    obtain ⟨⟨f2, a2⟩, g2, y2, us2⟩ := sf2
    dsimp only at hus hf1 hf2 ha1 ha2 hg1 hg2 hpath ⊢
    subst hus
    unfold TigerShapefile.filepath TigerShapefile.dir TigerShapefile.filename
      at hpath
    dsimp only at hpath
    by_cases c1 : us1.contains g1 = true <;> by_cases c2 : us1.contains g2 = true
    · rw [if_pos c1] at hpath
      rw [if_pos c1] at hpath
      rw [if_pos c2] at hpath
      rw [if_pos c2] at hpath
      rw [hg1, hg2] at hpath
      have hd := congrArg String.data hpath
      rw [data_joinPath, data_joinPath, data_us_filename, data_us_filename] at hd
      have hd2 := List.append_cancel_left hd
      injection hd2 with _ hd3
      injection hd3 with _ hd4
      injection hd4 with _ hd5
      injection hd5 with _ hd6
      have hdig1 : ∀ c ∈ (toString y1 : String).data, c ≠ '_' :=
        repr_data_no_underscore y1
      have hdig2 : ∀ c ∈ (toString y2 : String).data, c ≠ '_' :=
        repr_data_no_underscore y2
      obtain ⟨hy, hrest⟩ := append_underscore_inj _ _ _ _ hdig1 hdig2 hd6
      injection hrest with _ hrest2
      injection hrest2 with _ hrest3
      injection hrest3 with _ hrest4
      have hgd := (List.append_inj' hrest4 rfl).1
      exact ⟨String.ext hgd, nat_repr_injective y1 y2 (String.ext hy),
        Or.inl (mem_of_contains _ _ c1)⟩
    · rw [if_pos c1] at hpath
      rw [if_pos c1] at hpath
      rw [if_neg c2] at hpath
      rw [if_neg c2] at hpath
      have hd := congrArg String.data hpath
      rw [data_joinPath, data_joinPath, data_joinPath, data_us_filename] at hd
      rw [List.append_assoc, List.cons_append] at hd
      have hd2 := List.append_cancel_left hd
      injection hd2 with _ hd3
      obtain ⟨x, y, hxy⟩ := List.length_eq_two.mp
        (show a2.data.length = 2 from ha2)
      rw [hxy, List.cons_append, List.cons_append, List.nil_append] at hd3
      injection hd3 with e1 hd4
      injection hd4 with e2 hd5
      injection hd5 with e3 _
      exact absurd e3 (by decide)
    · rw [if_neg c1] at hpath
      rw [if_neg c1] at hpath
      rw [if_pos c2] at hpath
      rw [if_pos c2] at hpath
      have hd := congrArg String.data hpath.symm
      rw [data_joinPath, data_joinPath, data_joinPath, data_us_filename] at hd
      rw [List.append_assoc, List.cons_append] at hd
      have hd2 := List.append_cancel_left hd
      injection hd2 with _ hd3
      obtain ⟨x, y, hxy⟩ := List.length_eq_two.mp
        (show a1.data.length = 2 from ha1)
      rw [hxy, List.cons_append, List.cons_append, List.nil_append] at hd3
      injection hd3 with e1 hd4
      injection hd4 with e2 hd5
      injection hd5 with e3 _
      exact absurd e3 (by decide)
    · rw [if_neg c1] at hpath
      rw [if_neg c1] at hpath
      rw [if_neg c2] at hpath
      rw [if_neg c2] at hpath
      rw [hg1, hg2] at hpath
      have hd := congrArg String.data hpath
      rw [data_joinPath, data_joinPath, data_joinPath, data_joinPath,
        data_state_filename, data_state_filename] at hd
      rw [List.append_assoc, List.append_assoc, List.cons_append,
        List.cons_append] at hd
      have hd2 := List.append_cancel_left hd
      injection hd2 with _ hd3
      have hlen : a1.data.length = a2.data.length := by
        rw [string_length_data, string_length_data, ha1, ha2]
      obtain ⟨habbr, hd4⟩ := List.append_inj hd3 hlen
      injection hd4 with _ hd5
      injection hd5 with _ h6
      injection h6 with _ h7
      injection h7 with _ h8
      obtain ⟨hy, h9⟩ := append_underscore_inj _ _ _ _
        (repr_data_no_underscore y1) (repr_data_no_underscore y2) h8
      obtain ⟨hfips, h10⟩ := append_underscore_inj _ _ _ _
        (fun c hc => digit_ne_underscore c (hf1.2 c hc))
        (fun c hc => digit_ne_underscore c (hf2.2 c hc)) h9
      have hgd := (List.append_inj' h10 rfl).1
      refine ⟨String.ext hgd, nat_repr_injective y1 y2 (String.ext hy),
        Or.inr ?_⟩
      rw [show f1 = f2 from String.ext hfips, show a1 = a2 from String.ext habbr]
  · intro st1 st2 g y us hg
    have hc : us.contains g = true := List.elem_iff.mpr hg
    unfold TigerShapefile.filepath TigerShapefile.dir TigerShapefile.filename
    dsimp only
    rw [if_pos hc]
    rw [if_pos hc]
    rw [if_pos hc]
    rw [if_pos hc]

theorem shapefile_filepath_injective_witness :
    (shapefileFor iowa "county" 2020).geounit
        = (shapefileFor ⟨"31", "NE"⟩ "county" 2020).geounit
    ∧ (shapefileFor iowa "county" 2020).year
        = (shapefileFor ⟨"31", "NE"⟩ "county" 2020).year
    ∧ ((shapefileFor iowa "county" 2020).geounit
          ∈ (shapefileFor iowa "county" 2020).us_only
      ∨ (shapefileFor iowa "county" 2020).state
          = (shapefileFor ⟨"31", "NE"⟩ "county" 2020).state) :=
  shapefile_filepath_injective.1 (shapefileFor iowa "county" 2020)
    (shapefileFor ⟨"31", "NE"⟩ "county" 2020) rfl ⟨by decide, by decide⟩
    ⟨by decide, by decide⟩ (by decide) (by decide) (by decide) (by decide)
    (by decide)

end Gerry
